import Mathlib

/-!
Verification of the CRM AI backend's conversational query pipeline.

The development shallowly embeds the Python source:

* `get_user_data`   — `AIService.get_user_data` (src/services/ai_service.py),
  with the relational store modelled as lists of rows scanned in stored order;
* `build_prompt`    — `AIService.build_prompt`, including its mutation of the
  per-user conversation map (it inserts an empty log for an unknown user);
* `ask_question`    — `AIService.ask_question`; the two external calls
  (database fetch, blocking model invocation) are passed in as their outcomes
  (`Except`), since both are external collaborators;
* `clear_user_memory` — `AIService.clear_user_memory`;
* `query_ai` / `generate_ai_stream` — the two route handlers of
  src/routes/ai_routes.py. The token source of the streaming route
  (`stream_from_ollama_direct`) is absent from the source tree, so its
  outcome (the yielded fragments, and whether it then fails) is a parameter,
  modelled from the spec's description of the model's streaming interface.

Python dictionaries are embedded as insertion-ordered association lists,
Python string `strip` as `String.trim`, and slice `l[-n:]` as `lastN n l`.
-/

/-- One conversational turn as stored in `user_conversations`:
`{"question": ..., "answer": ..., "timestamp": ...}`. -/
structure Exchange where
  question : String
  answer : String
  timestamp : String
deriving DecidableEq, Repr

/-- The per-user conversation map `AIService.user_conversations`: a Python
dict from user_id to a list of exchanges, embedded as an insertion-ordered
association list. -/
abbrev Store := List (String × List Exchange)

/-- Dictionary lookup: the value stored under `u`, if any. -/
def findLog : Store → String → Option (List Exchange)
  | [], _ => none
  | (k, v) :: rest, u => if k = u then some v else findLog rest u

/-- Dictionary membership test (`u in d`). -/
def containsLog (s : Store) (u : String) : Bool :=
  (findLog s u).isSome

/-- Dictionary assignment `d[u] = l`: overwrite if present, else insert at
the end (Python dicts preserve insertion order). -/
def setLog : Store → String → List Exchange → Store
  | [], u, l => [(u, l)]
  | (k, v) :: rest, u, l =>
    if k = u then (u, l) :: rest else (k, v) :: setLog rest u l

/-- Dictionary deletion `del d[u]`. -/
def eraseLog : Store → String → Store
  | [], _ => []
  | (k, v) :: rest, u =>
    if k = u then eraseLog rest u else (k, v) :: eraseLog rest u

/-- The exchange list stored for `u`, reading an absent entry as empty. -/
def logOf (s : Store) (u : String) : List Exchange :=
  (findLog s u).getD []

/-- Python slice `l[-n:]`: the last `n` elements (all of them when the list
is shorter). -/
def lastN (n : Nat) (l : List α) : List α :=
  l.drop (l.length - n)

/-- The memory update both ask paths perform: append the exchange, then
`if len > 10: keep only the last 10` (ai_service.py lines 156-164 and the
identical lines 161-169 of ai_routes.py). -/
def appendEvict (log : List Exchange) (e : Exchange) : List Exchange :=
  let l := log ++ [e]
  if 10 < l.length then lastN 10 l else l

/-- A row of the `contacts` table. -/
structure ContactRow where
  id : Nat
  user_id : String
  name : String
  company : Option String
  phone_number : Option String
  contact_email : Option String
deriving DecidableEq, Repr

/-- A row of the `notes` table (`contact_ids` is the JSON array column; a
SQL NULL or empty array are both embedded as `[]`, matching the code's
truthiness checks). -/
structure NoteRow where
  id : Nat
  user_id : String
  title : String
  description : Option String
  contact_ids : List Nat
deriving DecidableEq, Repr

/-- The external relational store the gateway reads through. -/
structure DB where
  contacts : List ContactRow
  notes : List NoteRow
deriving DecidableEq, Repr

/-- A contact as returned by `get_user_data` (the selected columns). -/
structure ContactView where
  id : Nat
  name : String
  company : Option String
  phone_number : Option String
  contact_email : Option String
deriving DecidableEq, Repr

/-- A note as returned by `get_user_data`, with the derived
`related_contacts` names. -/
structure NoteView where
  id : Nat
  title : String
  description : Option String
  contact_ids : List Nat
  related_contacts : List String
deriving DecidableEq, Repr

/-- Python truthiness of an optional string column: SQL NULL (`none`) and
the empty string are falsy. -/
def optTruthy : Option String → Bool
  | none => false
  | some s => s ≠ ""

/-- `AIService.get_user_data` (ai_service.py lines 24-78): the contacts and
notes of `uid`, each note's referenced contact ids resolved to the names of
the contacts that exist and belong to `uid`, in the table's stored order;
an empty id list skips the secondary query. -/
def get_user_data (db : DB) (uid : String) : List ContactView × List NoteView :=
  let contacts := (db.contacts.filter (fun c => c.user_id == uid)).map
    (fun c => { id := c.id, name := c.name, company := c.company,
                phone_number := c.phone_number, contact_email := c.contact_email })
  let notes := (db.notes.filter (fun n => n.user_id == uid)).map (fun n =>
    let contact_names :=
      if n.contact_ids.isEmpty then []
      else (db.contacts.filter
              (fun c => n.contact_ids.contains c.id && c.user_id == uid)).map
        (fun c => c.name)
    { id := n.id, title := n.title, description := n.description,
      contact_ids := n.contact_ids, related_contacts := contact_names })
  (contacts, notes)

/-- One bullet of the CONTACTS block (ai_service.py lines 84-92). -/
def contactLine (c : ContactView) : String :=
  let s := "• " ++ c.name
  let s := if optTruthy c.company then s ++ " (" ++ c.company.getD "" ++ ")" else s
  let s := if optTruthy c.contact_email then s ++ " - " ++ c.contact_email.getD "" else s
  let s := if optTruthy c.phone_number then s ++ " - " ++ c.phone_number.getD "" else s
  s

/-- One bullet of the NOTES block (ai_service.py lines 96-102). -/
def noteLine (n : NoteView) : String :=
  let s := "• " ++ n.title
  let s := if optTruthy n.description then s ++ ": " ++ n.description.getD "" else s
  let s :=
    if n.related_contacts.isEmpty then s
    else s ++ " (Related to: " ++ String.intercalate ", " n.related_contacts ++ ")"
  s

/-- The two lines a stored exchange contributes to the history block. -/
def historyLines : List Exchange → List String
  | [] => []
  | e :: rest => ("Human: " ++ e.question) :: ("AI: " ++ e.answer) :: historyLines rest

/-- The f-string of ai_service.py lines 124-139 as a function of its four
interpolated pieces. -/
def promptText (contacts_text notes_text history_text question : String) : String :=
  "You are a helpful AI assistant for a CRM system. You're having a conversation with a user about their business contacts and notes.\n\nContext about the user's data:\nCONTACTS:\n"
    ++ contacts_text
    ++ "\n\nNOTES:\n"
    ++ notes_text
    ++ "\n\nInstructions: Answer naturally and conversationally. Don't start with phrases like \"Based on your data\" or \"According to your notes\". \nAct like you're a helpful assistant who knows this information about the user. Be direct and answer concisely. Don't make out-of-place suggestions, just answer whatever the user is asking and move on.\nIf you don't have relevant information, just say you don't see that information rather than being overly formal. \nAlso, you are not able to create notes or contacts for a user, so if they ask you to actually do something for them which requires any other CRUD operation than reading, tell them you can't. \n\n"
    ++ (if history_text == "" then "" else "Previous conversation:\n" ++ history_text ++ "\n")
    ++ "Human: " ++ question ++ "\nAI: "

/-- `AIService.build_prompt` (ai_service.py lines 80-141). Besides the text
it also returns the conversation map, because the code inserts an empty log
for a user_id it has not seen (lines 109-110). -/
def build_prompt (store : Store) (uid question : String)
    (contacts : List ContactView) (notes : List NoteView) : String × Store :=
  let contacts_formatted := contacts.map contactLine
  let notes_formatted := notes.map noteLine
  let contacts_text :=
    if contacts_formatted.isEmpty then "No contacts found."
    else String.intercalate "\n" contacts_formatted
  let notes_text :=
    if notes_formatted.isEmpty then "No notes found."
    else String.intercalate "\n" notes_formatted
  let store' := if containsLog store uid then store else setLog store uid []
  let conversation_history := logOf store' uid
  let history_text :=
    if conversation_history.isEmpty then ""
    else String.intercalate "\n" (historyLines (lastN 6 conversation_history))
  (promptText contacts_text notes_text history_text question, store')

/-- Result of the blocking ask: the success dict or the
`{success: false, error: ...}` dict. -/
inductive AskResult where
  | ok (response : String) (contacts_count notes_count : Nat)
  | err (error : String)
deriving DecidableEq, Repr

/-- `AIService.ask_question` (ai_service.py lines 143-179). `fetch` is the
outcome of the `get_user_data` call and `llm` the outcome of
`self.llm.invoke` — an `Except.error` embeds the call raising. -/
def ask_question (store : Store) (uid question : String)
    (fetch : Except String (List ContactView × List NoteView))
    (llm : Except String String) (now : String) : AskResult × Store :=
  match fetch with
  | .error e => (.err e, store)
  | .ok (contacts, notes) =>
    let s1 := (build_prompt store uid question contacts notes).2
    match llm with
    | .error e => (.err e, s1)
    | .ok response =>
      let s2 := setLog s1 uid
        (appendEvict (logOf s1 uid) ⟨question, response.trim, now⟩)
      (.ok response.trim contacts.length notes.length, s2)

/-- `AIService.clear_user_memory` (ai_service.py lines 242-247). -/
def clear_user_memory (store : Store) (uid : String) : Bool × Store :=
  if containsLog store uid then (true, eraseLog store uid) else (false, store)

/-- The route-level validation `not request.user_id or len(request.user_id) < 10`
(ai_routes.py lines 37 and 94). -/
def invalidUid (uid : String) : Bool :=
  uid == "" || decide (uid.length < 10)

/-- Outcome of the `/ai/query` handler. -/
inductive RouteResult where
  | validationError (status : Nat) (detail : String)
  | ok (response : String) (contacts_count notes_count : Nat)
  | serverError (status : Nat) (detail : String)
deriving DecidableEq, Repr

/-- `query_ai` (ai_routes.py lines 21-68): validate, then delegate to
`ask_question`, mapping its failure dict to an HTTP 500. -/
def query_ai (store : Store) (uid q : String)
    (fetch : Except String (List ContactView × List NoteView))
    (llm : Except String String) (now : String) : RouteResult × Store :=
  if invalidUid uid then (.validationError 400 "Invalid user_id format", store)
  else
    match ask_question store uid q fetch llm now with
    | (.ok resp c n, s') => (.ok resp c n, s')
    | (.err e, s') => (.serverError 500 ("AI processing failed: " ++ e), s')

/-- A server-sent event of the streaming route. Status events keep only
their status tag; the complete event carries the reassembled response and
the data summary counts. -/
inductive SSE where
  | status (tag : String)
  | token (content : String)
  | error (message : String)
  | complete (full_response : String) (contacts_count notes_count : Nat)
deriving DecidableEq, Repr

/-- Modelled from the spec: `AIService.stream_from_ollama_direct`, the token
source the streaming route iterates (ai_routes.py line 141), is missing from
the source tree. Per §4.4B/§6 of the spec it is the model's lazy sequence of
text fragments, which may fail partway; its outcome is embedded as the
fragments it yields (`toks`) followed by an optional failure
(`streamErr`). -/
structure StreamOutcome where
  toks : List String
  streamErr : Option String
deriving DecidableEq, Repr

/-- `generate_ai_stream` (ai_routes.py lines 89-195): the finite event
sequence the streaming route produces, and the conversation map it leaves
behind. `fetch` is the outcome of `get_user_data`, `out` the outcome of the
model's token stream. -/
def generate_ai_stream (store : Store) (uid q : String)
    (fetch : Except String (List ContactView × List NoteView))
    (out : StreamOutcome) (now : String) : List SSE × Store :=
  if invalidUid uid then ([.error "Invalid user_id format"], store)
  else
    match fetch with
    | .error e =>
      ([.status "processing", .error ("Failed to load user data: " ++ e)], store)
    | .ok (contacts, notes) =>
      let pre : List SSE :=
        [.status "processing", .status "data_loaded", .status "thinking"]
      let s1 := (build_prompt store uid q contacts notes).2
      let tokenEvents := out.toks.map SSE.token
      match out.streamErr with
      | some m =>
        (pre ++ tokenEvents ++ [.error ("AI processing failed: " ++ m)], s1)
      | none =>
        let full_response := String.join out.toks
        let s2 := if containsLog s1 uid then s1 else setLog s1 uid []
        let s3 := setLog s2 uid
          (appendEvict (logOf s2 uid) ⟨q, full_response.trim, now⟩)
        (pre ++ tokenEvents
           ++ [.complete full_response.trim contacts.length notes.length], s3)

/-! ### Basic lemmas about the store and the bounded log -/

theorem findLog_setLog_self (s : Store) (u : String) (l : List Exchange) :
    findLog (setLog s u l) u = some l := by
  induction s with
  | nil => simp [setLog, findLog]
  | cons kv rest ih =>
    obtain ⟨k, v⟩ := kv
    by_cases h : k = u
    · simp [setLog, h, findLog]
    · simp [setLog, h, findLog, ih]

theorem logOf_setLog_self (s : Store) (u : String) (l : List Exchange) :
    logOf (setLog s u l) u = l := by
  simp [logOf, findLog_setLog_self]

theorem findLog_eraseLog_self (s : Store) (u : String) :
    findLog (eraseLog s u) u = none := by
  induction s with
  | nil => simp [eraseLog, findLog]
  | cons kv rest ih =>
    obtain ⟨k, v⟩ := kv
    by_cases h : k = u
    · simp [eraseLog, h, ih]
    · simp [eraseLog, h, findLog, ih]

theorem findLog_none_of_not_contains {s : Store} {u : String}
    (h : containsLog s u = false) : findLog s u = none := by
  cases hf : findLog s u with
  | none => rfl
  | some v => simp [containsLog, hf] at h

theorem logOf_ensure (s : Store) (u : String) :
    logOf (if containsLog s u then s else setLog s u []) u = logOf s u := by
  cases h : containsLog s u with
  | true => simp [h]
  | false =>
    simp only [h, Bool.false_eq_true, if_false]
    rw [logOf_setLog_self, logOf, findLog_none_of_not_contains h]
    rfl

theorem containsLog_ensure (s : Store) (u : String) :
    containsLog (if containsLog s u then s else setLog s u []) u = true := by
  cases h : containsLog s u with
  | true => simp [h]
  | false =>
    simp only [h, Bool.false_eq_true, if_false, containsLog, findLog_setLog_self]
    rfl

theorem lastN_length (n : Nat) (l : List α) : (lastN n l).length = min l.length n := by
  unfold lastN
  rw [List.length_drop]
  omega

theorem appendEvict_eq_lastN (log : List Exchange) (e : Exchange) :
    appendEvict log e = lastN 10 (log ++ [e]) := by
  simp only [appendEvict]
  by_cases h : 10 < (log ++ [e]).length
  · rw [if_pos h]
  · rw [if_neg h]
    unfold lastN
    have h0 : (log ++ [e]).length - 10 = 0 := by omega
    rw [h0, List.drop_zero]

theorem appendEvict_length (log : List Exchange) (e : Exchange) :
    (appendEvict log e).length = min (log.length + 1) 10 := by
  rw [appendEvict_eq_lastN, lastN_length]
  simp

theorem take_cons_take (x : α) (l : List α) (n : Nat) :
    (x :: l.take n).take n = (x :: l).take n := by
  cases n with
  | zero => rfl
  | succ m =>
    simp only [List.take_succ_cons, List.take_take]
    rw [Nat.min_eq_left (Nat.le_succ m)]

theorem lastN_eq_reverse_take (n : Nat) (l : List α) :
    lastN n l = (l.reverse.take n).reverse := by
  rw [List.take_reverse, List.reverse_reverse]
  rfl

theorem lastN_append_one (n : Nat) (xs : List α) (x : α) :
    lastN n (lastN n xs ++ [x]) = lastN n (xs ++ [x]) := by
  simp only [lastN_eq_reverse_take, List.reverse_append, List.reverse_cons,
    List.reverse_nil, List.nil_append, List.singleton_append, List.reverse_reverse]
  rw [take_cons_take]

theorem historyLines_length (l : List Exchange) :
    (historyLines l).length = 2 * l.length := by
  induction l with
  | nil => rfl
  | cons e rest ih =>
    simp only [historyLines, List.length_cons, ih]
    omega

theorem isEmpty_map (f : α → β) (l : List α) : (l.map f).isEmpty = l.isEmpty := by
  cases l <;> rfl

/-! ### Lemmas about `build_prompt` and `ask_question` -/

theorem build_prompt_store (s : Store) (uid q : String)
    (cs : List ContactView) (ns : List NoteView) :
    (build_prompt s uid q cs ns).2
      = if containsLog s uid then s else setLog s uid [] := rfl

/-- The CONTACTS block of the prompt as a function of the contact list. -/
def contactsTextOf (contacts : List ContactView) : String :=
  if contacts.isEmpty then "No contacts found."
  else String.intercalate "\n" (contacts.map contactLine)

/-- The NOTES block of the prompt as a function of the note list. -/
def notesTextOf (notes : List NoteView) : String :=
  if notes.isEmpty then "No notes found."
  else String.intercalate "\n" (notes.map noteLine)

/-- The history block of the prompt as a function of the stored history. -/
def historyTextOf (history : List Exchange) : String :=
  if history.isEmpty then ""
  else String.intercalate "\n" (historyLines (lastN 6 history))

/-- The prompt as a pure function of (question, contacts, notes, history):
the amended form of the spec's purity sentence, to be compared with
`build_prompt`. -/
def promptFromInputs (question : String) (contacts : List ContactView)
    (notes : List NoteView) (history : List Exchange) : String :=
  promptText (contactsTextOf contacts) (notesTextOf notes)
    (historyTextOf history) question

theorem build_prompt_fst (s : Store) (uid question : String)
    (contacts : List ContactView) (notes : List NoteView) :
    (build_prompt s uid question contacts notes).1
      = promptFromInputs question contacts notes (logOf s uid) := by
  simp only [build_prompt, promptFromInputs, contactsTextOf, notesTextOf,
    historyTextOf, isEmpty_map, logOf_ensure]

theorem historyTextOf_eq (h : List Exchange) :
    historyTextOf h = String.intercalate "\n" (historyLines (lastN 6 h)) := by
  cases h with
  | nil => rfl
  | cons a t => simp [historyTextOf]

theorem ask_question_ok (s : Store) (uid q : String)
    (cs : List ContactView) (ns : List NoteView) (r now : String) :
    ask_question s uid q (.ok (cs, ns)) (.ok r) now
      = (.ok r.trim cs.length ns.length,
         setLog (if containsLog s uid then s else setLog s uid []) uid
           (appendEvict (logOf s uid) ⟨q, r.trim, now⟩)) := by
  simp only [ask_question, build_prompt_store, logOf_ensure]

theorem ask_ok_logOf (s : Store) (uid q : String)
    (cs : List ContactView) (ns : List NoteView) (r now : String) :
    logOf (ask_question s uid q (.ok (cs, ns)) (.ok r) now).2 uid
      = appendEvict (logOf s uid) ⟨q, r.trim, now⟩ := by
  rw [ask_question_ok]
  exact logOf_setLog_self ..

/-! ### C9 -/

/-- C9: `clear_user_memory` returns exactly whether a log was present (true
when one was deleted, false as a no-op otherwise), afterwards no log is
stored for the user, a second consecutive clear returns false, and a log
read after a clear starts empty. -/
theorem c9_clear_user_memory (store : Store) (uid : String) :
    (clear_user_memory store uid).1 = containsLog store uid
    ∧ findLog (clear_user_memory store uid).2 uid = none
    ∧ (clear_user_memory (clear_user_memory store uid).2 uid).1 = false
    ∧ logOf (clear_user_memory store uid).2 uid = [] := by
  cases hf : findLog store uid with
  | some v =>
    simp [clear_user_memory, containsLog, hf, findLog_eraseLog_self, logOf]
  | none =>
    simp [clear_user_memory, containsLog, hf, logOf]

/-! ### C10 -/

/-- C10: for a user with no stored log, an ask that fails after prompt
construction (model invocation raises) still creates an empty log entry for
that user, so a subsequent `clear_user_memory` returns true even though no
exchange was recorded. -/
theorem c10_failed_ask_creates_empty_log (store : Store) (uid q m now : String)
    (cs : List ContactView) (ns : List NoteView) (h : findLog store uid = none) :
    (ask_question store uid q (.ok (cs, ns)) (.error m) now).1 = .err m
    ∧ findLog (ask_question store uid q (.ok (cs, ns)) (.error m) now).2 uid = some []
    ∧ (clear_user_memory (ask_question store uid q (.ok (cs, ns)) (.error m) now).2 uid).1
        = true := by
  have hc : containsLog store uid = false := by simp [containsLog, h]
  refine ⟨rfl, ?_, ?_⟩
  · simp [ask_question, build_prompt_store, hc, findLog_setLog_self]
  · simp [ask_question, build_prompt_store, clear_user_memory, containsLog, h,
      findLog_setLog_self]

/-- Witness for C10 at a concrete input. -/
theorem c10_witness :
    (ask_question [] "abcdefghij" "q" (.ok ([], [])) (.error "boom") "t").1 = .err "boom"
    ∧ findLog (ask_question [] "abcdefghij" "q" (.ok ([], [])) (.error "boom") "t").2
        "abcdefghij" = some []
    ∧ (clear_user_memory
        (ask_question [] "abcdefghij" "q" (.ok ([], [])) (.error "boom") "t").2
        "abcdefghij").1 = true :=
  c10_failed_ask_creates_empty_log [] "abcdefghij" "q" "boom" "t" [] [] rfl

/-! ### C2 -/

/-- C2: if the data fetch raises, the blocking ask returns the failure dict
and the store is untouched; if the model invocation raises, it returns the
failure dict and the user's stored exchange sequence is unchanged. -/
theorem c2_failed_ask_returns_error_and_preserves_log
    (store : Store) (uid q now : String) :
    (∀ (llm : Except String String) (m : String),
        ask_question store uid q (.error m) llm now = (.err m, store))
    ∧ ∀ (cs : List ContactView) (ns : List NoteView) (m : String),
        (ask_question store uid q (.ok (cs, ns)) (.error m) now).1 = .err m
        ∧ logOf (ask_question store uid q (.ok (cs, ns)) (.error m) now).2 uid
            = logOf store uid := by
  refine ⟨fun llm m => rfl, fun cs ns m => ⟨rfl, ?_⟩⟩
  simp only [ask_question, build_prompt_store, logOf_ensure]

/-! ### C5 -/

/-- C5 counterexample: `build_prompt` is not side-effect free — called for a
user with no stored log it inserts an empty log entry, so the claim's
"leaving the conversation memory store unchanged" is false at this input. -/
theorem c5_counterexample :
    ((build_prompt [] "abcdefghij" "hi" [] []).2 = ([] : Store)) ↔ False := by
  simp [build_prompt_store, containsLog, findLog, setLog]

/-- C5 (amended): the prompt text is a pure function of (question, contacts,
notes, the user's history) — in particular it is deterministic and depends
on no other state — and the only store mutation is inserting an empty log
for a user not yet present (a user already present leaves the store
unchanged). -/
theorem c5_amended_prompt_pure_function_of_inputs (store : Store)
    (uid question : String) (contacts : List ContactView) (notes : List NoteView) :
    (build_prompt store uid question contacts notes).1
        = promptFromInputs question contacts notes (logOf store uid)
    ∧ (build_prompt store uid question contacts notes).2
        = (if containsLog store uid then store else setLog store uid []) :=
  ⟨build_prompt_fst store uid question contacts notes,
   build_prompt_store store uid question contacts notes⟩

/-! ### C6 -/

/-- C6: every note returned by the gateway resolves `related_contacts` to
exactly the names of the referenced contact ids that exist and belong to the
same user, in the contacts table's stored order; nonexistent or foreign-user
ids are dropped silently (a nonmember of the filter), and an empty id list
yields an empty name list. -/
theorem c6_related_contacts_resolution (db : DB) (uid : String) :
    ∀ nv ∈ (get_user_data db uid).2,
      nv.related_contacts
        = (db.contacts.filter
            (fun c => nv.contact_ids.contains c.id && c.user_id == uid)).map
            (fun c => c.name) := by
  intro nv hmem
  simp only [get_user_data, List.mem_map] at hmem
  obtain ⟨n, hn, rfl⟩ := hmem
  by_cases he : n.contact_ids.isEmpty
  · have hne : n.contact_ids = [] := by simpa [List.isEmpty_iff] using he
    simp [hne]
  · simp [he]

/-- A concrete database for the C6 witness: contacts 1 and 2 belong to the
note's user, contact 3 to another user, and id 99 does not exist. -/
def dbW : DB :=
  { contacts :=
      [ ⟨1, "user-00000001", "Alice", none, none, none⟩,
        ⟨2, "user-00000001", "Bob", none, none, none⟩,
        ⟨3, "user-00000002", "Eve", none, none, none⟩ ],
    notes := [ ⟨1, "user-00000001", "meeting", none, [1, 2, 3, 99]⟩ ] }

/-- Witness for C6: the note referencing ids [1, 2, 3, 99] resolves to
exactly the two same-user names, in stored order. -/
theorem c6_witness :
    ({ id := 1, title := "meeting", description := none,
       contact_ids := [1, 2, 3, 99],
       related_contacts := ["Alice", "Bob"] } : NoteView).related_contacts
      = (dbW.contacts.filter
          (fun c => ([1, 2, 3, 99] : List Nat).contains c.id
            && c.user_id == "user-00000001")).map (fun c => c.name) :=
  c6_related_contacts_resolution dbW "user-00000001" _ (by decide)

/-! ### C7 -/

/-- C7: an empty user_id, or one shorter than 10 characters, makes both the
blocking and the streaming route reject with the validation error before
anything else: the result does not depend on the data-access or model
outcomes, and the store is returned unchanged. -/
theorem c7_invalid_user_id_fails_fast (store : Store) (uid q now : String)
    (h : uid = "" ∨ uid.length < 10) :
    ∀ (fetch : Except String (List ContactView × List NoteView))
      (llm : Except String String) (out : StreamOutcome),
      query_ai store uid q fetch llm now
          = (.validationError 400 "Invalid user_id format", store)
      ∧ generate_ai_stream store uid q fetch out now
          = ([.error "Invalid user_id format"], store) := by
  have hv : invalidUid uid = true := by
    rcases h with h | h
    · simp [invalidUid, h]
    · simp [invalidUid, h]
  intro fetch llm out
  exact ⟨by simp [query_ai, hv], by simp [generate_ai_stream, hv]⟩

/-- Witness for C7 at the 5-character user_id of the spec's scenario. -/
theorem c7_witness :
    query_ai [] "short" "q" (.error "db down") (.error "llm down") "t"
        = (.validationError 400 "Invalid user_id format", [])
    ∧ generate_ai_stream [] "short" "q" (.error "db down") ⟨[], none⟩ "t"
        = ([.error "Invalid user_id format"], []) :=
  c7_invalid_user_id_fails_fast [] "short" "q" "t" (Or.inr (by decide))
    (.error "db down") (.error "llm down") ⟨[], none⟩

/-! ### C3 -/

/-- Helper for the C3 counterexample: the history text the claim predicts,
keeping only the last 3 question/answer exchanges (6 lines). -/
def historyTextClaimC3 (history : List Exchange) : String :=
  if history.isEmpty then ""
  else String.intercalate "\n" (historyLines (lastN 3 history))

/-- A user with four stored exchanges, for the C3 counterexample. -/
def store4 : Store :=
  [("abcdefghij",
    [⟨"h1q", "a1", "t"⟩, ⟨"h2q", "a2", "t"⟩, ⟨"h3q", "a3", "t"⟩, ⟨"h4q", "a4", "t"⟩])]

set_option maxRecDepth 10000 in
/-- C3 counterexample: with 4 stored exchanges the prompt `build_prompt`
produces is not the prompt containing only the last 3 exchanges that the
claim describes — the code renders the last 6 stored exchanges (each
contributing a Human and an AI line), so the first exchange is still
present. -/
theorem c3_counterexample :
    ((build_prompt store4 "abcdefghij" "now?" [] []).1
      = promptText "No contacts found." "No notes found."
          (historyTextClaimC3 (logOf store4 "abcdefghij")) "now?") ↔ False := by
  decide

/-- C3 (amended): the prompt renders the history as exactly the last 6
stored exchanges — hence at most 12 history lines, two (Human then AI) per
exchange — and an empty history contributes the empty text, which makes
`promptText` omit the section and its header entirely. -/
theorem c3_amended_history_last_six_exchanges (store : Store)
    (uid question : String) (contacts : List ContactView) (notes : List NoteView) :
    (build_prompt store uid question contacts notes).1
        = promptText (contactsTextOf contacts) (notesTextOf notes)
            (String.intercalate "\n" (historyLines (lastN 6 (logOf store uid))))
            question
    ∧ (historyLines (lastN 6 (logOf store uid))).length
        = 2 * min (logOf store uid).length 6 := by
  constructor
  · rw [build_prompt_fst, promptFromInputs, historyTextOf_eq]
  · rw [historyLines_length, lastN_length]

/-! ### C1 -/

/-- The exchange the i-th successful ask records, when the i-th question is
`qs i`, the model's i-th response `rs i` and the i-th timestamp `ts i`. -/
def exchAt (qs rs ts : Nat → String) (i : Nat) : Exchange :=
  ⟨qs i, (rs i).trim, ts i⟩

/-- `n` consecutive successful blocking asks for `uid`, the i-th with
question `qs i`, fetched data `(cs i, ns i)`, model response `rs i` and
timestamp `ts i`. -/
def askN (store : Store) (uid : String) (qs rs ts : Nat → String)
    (cs : Nat → List ContactView) (ns : Nat → List NoteView) : Nat → Store
  | 0 => store
  | n + 1 =>
    (ask_question (askN store uid qs rs ts cs ns n) uid (qs n)
      (.ok (cs n, ns n)) (.ok (rs n)) (ts n)).2

theorem askN_logOf (store : Store) (uid : String) (qs rs ts : Nat → String)
    (cs : Nat → List ContactView) (ns : Nat → List NoteView)
    (h : findLog store uid = none) (n : Nat) :
    logOf (askN store uid qs rs ts cs ns n) uid
      = lastN 10 ((List.range n).map (exchAt qs rs ts)) := by
  induction n with
  | zero =>
    simp [askN, logOf, h, lastN]
  | succ n ih =>
    show logOf (ask_question (askN store uid qs rs ts cs ns n) uid (qs n)
      (.ok (cs n, ns n)) (.ok (rs n)) (ts n)).2 uid = _
    rw [ask_ok_logOf, ih, appendEvict_eq_lastN, List.range_succ, List.map_append,
      List.map_singleton]
    exact lastN_append_one 10 _ _

/-- C1: starting from no stored log, after `n` consecutive successful asks
the stored log is exactly the last 10 of the `n` recorded exchanges in
chronological order, its length is `min n 10`, and a successful ask always
leaves the user's log at length at most 10 (the oldest entries are the ones
dropped, being the front of the `lastN`). -/
theorem c1_conversation_log_bounded_fifo (uid : String) (qs rs ts : Nat → String)
    (cs : Nat → List ContactView) (ns : Nat → List NoteView)
    (store : Store) (h : findLog store uid = none) (n : Nat) :
    logOf (askN store uid qs rs ts cs ns n) uid
        = lastN 10 ((List.range n).map (exchAt qs rs ts))
    ∧ (logOf (askN store uid qs rs ts cs ns n) uid).length = min n 10
    ∧ ∀ (s : Store) (q r now : String) (c : List ContactView)
        (nn : List NoteView),
        (logOf (ask_question s uid q (.ok (c, nn)) (.ok r) now).2 uid).length
          ≤ 10 := by
  refine ⟨askN_logOf store uid qs rs ts cs ns h n, ?_, ?_⟩
  · rw [askN_logOf store uid qs rs ts cs ns h n, lastN_length, List.length_map,
      List.length_range]
  · intro s q r now c nn
    rw [ask_ok_logOf, appendEvict_length]
    omega

/-- Witness for C1: twelve successful asks from an empty store leave a log
of length 10 holding exchanges 2 through 11. -/
theorem c1_witness :
    logOf (askN [] "abcdefghij" (fun i => toString i) (fun i => toString (i + 100))
        (fun i => toString (i + 200)) (fun _ => []) (fun _ => []) 12) "abcdefghij"
        = lastN 10 ((List.range 12).map (exchAt (fun i => toString i)
            (fun i => toString (i + 100)) (fun i => toString (i + 200))))
    ∧ (logOf (askN [] "abcdefghij" (fun i => toString i) (fun i => toString (i + 100))
        (fun i => toString (i + 200)) (fun _ => []) (fun _ => []) 12) "abcdefghij").length
        = min 12 10
    ∧ ∀ (s : Store) (q r now : String) (c : List ContactView)
        (nn : List NoteView),
        (logOf (ask_question s "abcdefghij" q (.ok (c, nn)) (.ok r) now).2
          "abcdefghij").length ≤ 10 :=
  c1_conversation_log_bounded_fifo "abcdefghij" (fun i => toString i)
    (fun i => toString (i + 100)) (fun i => toString (i + 200))
    (fun _ => []) (fun _ => []) [] rfl 12

/-! ### C4 -/

/-- Recognises a complete event. -/
def isComplete : SSE → Bool
  | .complete .. => true
  | _ => false

/-- Recognises an error event. -/
def isError : SSE → Bool
  | .error _ => true
  | _ => false

/-- Recognises a status event. -/
def isStatus : SSE → Bool
  | .status _ => true
  | _ => false

/-- Whether an `Except` outcome is a success. -/
def exceptIsOk : Except String (List ContactView × List NoteView) → Bool
  | .ok _ => true
  | .error _ => false

/-- The streaming request runs to completion: valid user_id, the data fetch
succeeded and the model's token stream did not fail. -/
def streamSucceeds (uid : String)
    (fetch : Except String (List ContactView × List NoteView))
    (out : StreamOutcome) : Bool :=
  !invalidUid uid && exceptIsOk fetch && out.streamErr.isNone

theorem countP_token_map (p : SSE → Bool) (toks : List String)
    (hp : ∀ t, p (SSE.token t) = false) :
    (toks.map SSE.token).countP p = 0 := by
  induction toks with
  | nil => rfl
  | cons t rest ih => simp [List.countP_cons, hp, ih]

theorem stream_shape_facts (pre : List SSE) (toks : List String) (e : SSE) :
    (pre ++ toks.map SSE.token ++ [e]).isEmpty = false
    ∧ (pre ++ toks.map SSE.token ++ [e]).countP isComplete
        = pre.countP isComplete + (if isComplete e then 1 else 0)
    ∧ (pre ++ toks.map SSE.token ++ [e]).countP isError
        = pre.countP isError + (if isError e then 1 else 0)
    ∧ (pre ++ toks.map SSE.token ++ [e]).getLast? = some e
    ∧ (pre ++ toks.map SSE.token ++ [e]).dropLast.countP isStatus
        = pre.countP isStatus := by
  refine ⟨?_, ?_, ?_, List.getLast?_concat _, ?_⟩
  · simp [List.isEmpty_iff]
  · rw [List.countP_append, List.countP_append,
      countP_token_map isComplete toks (fun t => rfl)]
    simp [List.countP_cons]
  · rw [List.countP_append, List.countP_append,
      countP_token_map isError toks (fun t => rfl)]
    simp [List.countP_cons]
  · rw [List.dropLast_concat, List.countP_append,
      countP_token_map isStatus toks (fun t => rfl)]
    rfl

/-- C4: every event sequence the streaming route produces is nonempty; it
contains exactly one complete event when the request runs to completion and
none otherwise; it contains an error event exactly when the request does
not run to completion; its last event is the complete event on success and
the error event otherwise (so an error terminates the sequence and never
coexists with a complete event); and on success at least one status event
precedes the final complete event. -/
theorem c4_stream_event_sequence_shape (store : Store) (uid q now : String)
    (fetch : Except String (List ContactView × List NoteView)) (out : StreamOutcome) :
    ((generate_ai_stream store uid q fetch out now).1).isEmpty = false
    ∧ ((generate_ai_stream store uid q fetch out now).1).countP isComplete
        = (if streamSucceeds uid fetch out then 1 else 0)
    ∧ ((generate_ai_stream store uid q fetch out now).1).countP isError
        = (if streamSucceeds uid fetch out then 0 else 1)
    ∧ ((generate_ai_stream store uid q fetch out now).1).getLast?.any
        (fun ev => if streamSucceeds uid fetch out then isComplete ev else isError ev)
        = true
    ∧ (if streamSucceeds uid fetch out then 1 else 0)
        ≤ (((generate_ai_stream store uid q fetch out now).1).dropLast).countP isStatus := by
  cases hv : invalidUid uid with
  | true =>
    have hsucc : streamSucceeds uid fetch out = false := by simp [streamSucceeds, hv]
    have he : (generate_ai_stream store uid q fetch out now).1
        = [.error "Invalid user_id format"] := by
      simp [generate_ai_stream, hv]
    rw [he, hsucc]
    refine ⟨rfl, rfl, rfl, rfl, Nat.zero_le _⟩
  | false =>
    cases fetch with
    | error e =>
      have hsucc : streamSucceeds uid (.error e) out = false := by
        simp [streamSucceeds, exceptIsOk]
      have he : (generate_ai_stream store uid q (.error e) out now).1
          = [.status "processing", .error ("Failed to load user data: " ++ e)] := by
        simp [generate_ai_stream, hv]
      rw [he, hsucc]
      refine ⟨rfl, rfl, rfl, rfl, Nat.zero_le _⟩
    | ok p =>
      obtain ⟨contacts, notes⟩ := p
      cases hs : out.streamErr with
      | some m =>
        have hsucc : streamSucceeds uid (.ok (contacts, notes)) out = false := by
          simp [streamSucceeds, hs]
        have he : (generate_ai_stream store uid q (.ok (contacts, notes)) out now).1
            = [.status "processing", .status "data_loaded", .status "thinking"]
                ++ out.toks.map SSE.token
                ++ [.error ("AI processing failed: " ++ m)] := by
          simp [generate_ai_stream, hv, hs]
        obtain ⟨h1, h2, h3, h4, h5⟩ := stream_shape_facts
          [.status "processing", .status "data_loaded", .status "thinking"]
          out.toks (.error ("AI processing failed: " ++ m))
        rw [he, hsucc]
        refine ⟨h1, by rw [h2]; rfl, by rw [h3]; rfl, by rw [h4]; rfl,
          Nat.zero_le _⟩
      | none =>
        have hsucc : streamSucceeds uid (.ok (contacts, notes)) out = true := by
          simp [streamSucceeds, hv, hs, exceptIsOk]
        have he : (generate_ai_stream store uid q (.ok (contacts, notes)) out now).1
            = [.status "processing", .status "data_loaded", .status "thinking"]
                ++ out.toks.map SSE.token
                ++ [.complete (String.join out.toks).trim contacts.length notes.length] := by
          simp [generate_ai_stream, hv, hs]
        obtain ⟨h1, h2, h3, h4, h5⟩ := stream_shape_facts
          [.status "processing", .status "data_loaded", .status "thinking"]
          out.toks (.complete (String.join out.toks).trim contacts.length notes.length)
        rw [he, hsucc]
        refine ⟨h1, by rw [h2]; rfl, by rw [h3]; rfl, by rw [h4]; rfl, ?_⟩
        rw [h5]
        decide

/-! ### C8 -/

/-- C8: on a streaming request that runs to completion, the exchange
appended to the user's log carries as its answer the concatenation of all
emitted token contents, trimmed — which is exactly the `full_response`
carried by the terminating complete event — and the log update is the very
same append-then-evict-to-10 step (`appendEvict`) the blocking ask uses. -/
theorem c8_stream_stores_reassembled_response (store : Store) (uid q now : String)
    (contacts : List ContactView) (notes : List NoteView) (out : StreamOutcome)
    (hv : invalidUid uid = false) (hs : out.streamErr = none) :
    ((generate_ai_stream store uid q (.ok (contacts, notes)) out now).1).getLast?
        = some (.complete (String.join out.toks).trim contacts.length notes.length)
    ∧ logOf (generate_ai_stream store uid q (.ok (contacts, notes)) out now).2 uid
        = appendEvict (logOf store uid) ⟨q, (String.join out.toks).trim, now⟩ := by
  constructor
  · have he : (generate_ai_stream store uid q (.ok (contacts, notes)) out now).1
        = [.status "processing", .status "data_loaded", .status "thinking"]
            ++ out.toks.map SSE.token
            ++ [.complete (String.join out.toks).trim contacts.length notes.length] := by
      simp [generate_ai_stream, hv, hs]
    rw [he]
    exact List.getLast?_concat _
  · have hstore : (generate_ai_stream store uid q (.ok (contacts, notes)) out now).2
        = setLog (if containsLog store uid then store else setLog store uid []) uid
            (appendEvict (logOf store uid) ⟨q, (String.join out.toks).trim, now⟩) := by
      simp [generate_ai_stream, hv, hs, build_prompt_store, containsLog_ensure,
        logOf_ensure]
    rw [hstore, logOf_setLog_self]

/-- Witness for C8: two tokens reassemble to the trimmed response stored
and reported by the complete event. -/
theorem c8_witness :
    ((generate_ai_stream [] "abcdefghij" "q"
        (.ok (([], []) : List ContactView × List NoteView))
        ⟨["Hel", "lo "], none⟩ "t").1).getLast?
        = some (.complete (String.join ["Hel", "lo "]).trim 0 0)
    ∧ logOf (generate_ai_stream [] "abcdefghij" "q"
        (.ok (([], []) : List ContactView × List NoteView))
        ⟨["Hel", "lo "], none⟩ "t").2 "abcdefghij"
        = appendEvict (logOf [] "abcdefghij")
            ⟨"q", (String.join ["Hel", "lo "]).trim, "t"⟩ :=
  c8_stream_stores_reassembled_response [] "abcdefghij" "q" "t" [] []
    ⟨["Hel", "lo "], none⟩ (by decide) rfl
